import Mathlib

/-!
Verification development for the personalized content generator backend.

The definitions below are a shallow embedding of the JavaScript code in
`backend/index.js` (the express routes `/generate`, `/evaluate-quiz`,
`/generate-level-test`, `/evaluate-level`) and of the helper
`parseQuestionsFromText` in `mcq-app/src/App.js`.

JavaScript machine values are modelled as follows: strings are Lean
`String` (Lean 4 strings are lists of characters, and all string
operations used here are restricted to ASCII, where JS `toLowerCase`,
`trim` and `\s` agree with the models below); JS numbers that can be
`NaN` are modelled by the type `JsNum`; values that may be a string, a
number or absent (`undefined`/`null`) are modelled by `JsAns`; fields
that may fail an `Array.isArray` check are modelled by `Option (List _)`.
-/

/-- JS `\s` (whitespace class), restricted to ASCII: space, tab, newline,
carriage return, vertical tab, form feed. -/
def jsSpace (c : Char) : Bool :=
  c == ' ' || c == '\t' || c == '\n' || c == '\r' || c == '\x0b' || c == '\x0c'

/-- JS `String.prototype.trim` (ASCII): drop whitespace from both ends. -/
def jsTrim (cs : List Char) : List Char :=
  ((cs.dropWhile jsSpace).reverse.dropWhile jsSpace).reverse

/-- The function `jsTrim` lifted to `String`. -/
def jsTrimStr (s : String) : String :=
  String.mk (jsTrim s.data)

/-- JS `String.prototype.toLowerCase` (ASCII). -/
def jsToLower (s : String) : String :=
  String.mk (s.data.map Char.toLower)

/-- A JS value that may be a string, a number, or absent
(`undefined` / `null`). Used for the `answer` field of generated
questions, which the backend duck-types. -/
inductive JsAns where
  | str (s : String)
  | num (n : Int)
  | absent
deriving DecidableEq, Repr

/-- JS truthiness for `JsAns`: `undefined`/`null`, `""` and `0` are falsy. -/
def jsTruthy : JsAns → Bool
  | .absent => false
  | .str s => !(s == "")
  | .num n => !(n == 0)

/-- The regex test `/^[A-D]$/i.test(s)`: `s` is a single letter A-D,
case-insensitively. -/
def isLetterAD (s : String) : Bool :=
  match s.data with
  | [c] => c == 'A' || c == 'B' || c == 'C' || c == 'D' ||
           c == 'a' || c == 'b' || c == 'c' || c == 'd'
  | _ => false

/-- Computes `s.toUpperCase().charCodeAt(0) - 65` for a string passing
`isLetterAD` (so the subtraction cannot underflow). -/
def letterIdx (s : String) : Nat :=
  match s.data with
  | c :: _ => c.toUpper.toNat - 65
  | [] => 0

/-- JS `opts[idx] || opts[0]`: the element at `idx` if it exists and is
truthy (non-empty), else `opts[0]` (which JS leaves `undefined`, i.e.
modelled `""`, when `opts` is empty; callers guard non-emptiness). -/
def jsIndexOr (opts : List String) (idx : Nat) : String :=
  match opts.get? idx with
  | some v => if v = "" then opts.headD "" else v
  | none => opts.headD ""

/-- JS `opts[n] || opts[0]` for a possibly negative numeric index
(`opts[-1]` is `undefined`, falling back to `opts[0]`). -/
def jsIndexOrZ (opts : List String) (n : Int) : String :=
  if 0 ≤ n then jsIndexOr opts n.toNat else opts.headD ""

/-- The answer normalizer: the body of the `questions.map` callback
building `normalizedAnswers` in `backend/index.js` (`/generate` route):

```
const ans = q.answer;
if (!ans) return opts[0] || "";
if (typeof ans === "string" && /^[A-D]$/i.test(ans) && opts.length > 0) {
  const idx = ans.toUpperCase().charCodeAt(0) - 65;
  return opts[idx] || opts[0];
}
if (typeof ans === "number" && opts.length > 0) {
  return opts[ans] || opts[0];
}
return ans;
```

`opts[0] || ""` coincides with `opts.headD ""` because when `opts[0]` is
the empty string the `||` also yields `""`. -/
def normalizeAnswer (ans : JsAns) (opts : List String) : JsAns :=
  if jsTruthy ans = false then .str (opts.headD "")
  else
    match ans with
    | .str s =>
        if isLetterAD s && !opts.isEmpty then .str (jsIndexOr opts (letterIdx s))
        else .str s
    | .num n =>
        if !opts.isEmpty then .str (jsIndexOrZ opts n)
        else .num n
    | .absent => .str (opts.headD "")

/-- A question object as produced by the question generator and consumed
by the `/generate` route. `optionsVal = none` models an `options` field
that fails `Array.isArray` (the route then uses `[]`). -/
structure GenQuestion where
  question : String
  optionsVal : Option (List String)
  answer : JsAns
deriving DecidableEq, Repr

/-- Models `Array.isArray(q.options) ? q.options : []` in the `/generate` route. -/
def genOpts (q : GenQuestion) : List String :=
  q.optionsVal.getD []

/-- The stored answer key built by `/generate`:
`questions.map((q) => ...)` with the `normalize` body above. -/
def normalizedAnswers (qs : List GenQuestion) : List JsAns :=
  qs.map (fun q => normalizeAnswer q.answer (genOpts q))

/-- The body sent to the client by `/generate`: `res.json(questions)`,
i.e. the generator's question list unchanged. -/
def generateResponse (qs : List GenQuestion) : List GenQuestion :=
  qs

/-- The property claimed of `/generate`: no question object in the
response body embeds a stored correct-answer value. -/
def generateNoDisclosure (qs : List GenQuestion) : Prop :=
  ∀ q ∈ generateResponse qs, ∀ a ∈ normalizedAnswers qs, q.answer ≠ a

/-- Case-insensitive removal of a pattern from the front of a character
list: `some rest` when `s` starts (case-insensitively) with `pat`. -/
def ciStrip : List Char → List Char → Option (List Char)
  | [], s => some s
  | _ :: _, [] => none
  | p :: ps, c :: cs => if p.toLower == c.toLower then ciStrip ps cs else none

/-- Case-insensitive starts-with test. -/
def ciStartsWith (pat s : List Char) : Bool :=
  (ciStrip pat s).isSome

/-- The literal body of the correct-answer regexes in
`parseQuestionsFromText`. -/
def caChars : List Char :=
  "correct answer:".data

/-- Matches `\*?Correct Answer:\*?`-style leading part at the head of
`s` (optional star, then the literal, case-insensitively), giving the
remainder after the literal. A star not followed by the literal fails:
the regex cannot skip a `*` character. -/
def caMarker (s : List Char) : Option (List Char) :=
  match s with
  | '*' :: t => ciStrip caChars t
  | _ => ciStrip caChars s

/-- Whether a suffix position begins the optional group
`(?:\s*\*?Correct Answer:\*?.*)?` of the option-line regex, i.e. starts
with `\s*\*?Correct Answer:` (the trailing `.*` always matches). -/
def startsCA (s : List Char) : Bool :=
  (caMarker (s.dropWhile jsSpace)).isSome

/-- The lazy capture `(.+?)` of the option-line regex
`/^([A-D])[.)]\s*(.+?)(?:\s*\*?Correct Answer:\*?.*)?$/i`, applied to
the text after the greedy `\s*`: the shortest non-empty prefix whose
remaining suffix begins the optional correct-answer group, or the whole
text when no suffix does. -/
def group2Of : List Char → List Char
  | [] => []
  | c :: rest => if startsCA rest then [c] else c :: group2Of rest

/-- The whole option-line regex
`/^([A-D])[.)]\s*(.+?)(?:\s*\*?Correct Answer:\*?.*)?$/i` applied to a
(trimmed) line: `some body` gives the second capture group. When the
characters after `A)` are all whitespace, the greedy `\s*` backtracks by
one character so that `(.+?)` captures a single whitespace character
(which the subsequent `.trim()` erases); with nothing at all after `A)`
the regex fails. The first capture group (the letter) is never used by
the source, so it is not returned. -/
def optionLineBody (cs : List Char) : Option (List Char) :=
  match cs with
  | c0 :: c1 :: rest =>
      if (c0 == 'A' || c0 == 'B' || c0 == 'C' || c0 == 'D' ||
          c0 == 'a' || c0 == 'b' || c0 == 'c' || c0 == 'd')
         && (c1 == '.' || c1 == ')') then
        match rest with
        | [] => none
        | _ :: _ =>
            let rest2 := rest.dropWhile jsSpace
            if rest2.isEmpty then some [' '] else some (group2Of rest2)
      else none
  | _ => none

/-- Whether a suffix matches the cleanup regex
`/\*?Correct Answer:\*?\s*[A-D]?\s*$/i` in its entirety: optional star,
the literal, optional star, whitespace, an optional letter A-D, then
whitespace up to the end of the string. -/
def matchesCleanup (s : List Char) : Bool :=
  match caMarker s with
  | none => false
  | some r =>
      let r1 := match r with | '*' :: t => t | _ => r
      match r1.dropWhile jsSpace with
      | [] => true
      | ch :: rest =>
          (ch == 'A' || ch == 'B' || ch == 'C' || ch == 'D' ||
           ch == 'a' || ch == 'b' || ch == 'c' || ch == 'd')
          && (rest.dropWhile jsSpace).isEmpty

/-- Models `optionText.replace(/\*?Correct Answer:\*?\s*[A-D]?\s*$/i, "")`:
drop the suffix starting at the leftmost position where the cleanup
regex matches through to the end; keep the text unchanged otherwise. -/
def cleanupOption : List Char → List Char
  | [] => []
  | c :: rest => if matchesCleanup (c :: rest) then [] else c :: cleanupOption rest

/-- The unanchored search `line.match(/\*?Correct Answer:\*?\s*([A-D])/i)`:
the first capture group of the leftmost match, i.e. the first letter A-D
(the `/i` flag lets the class capture a lowercase letter) that follows
optional star, the literal `Correct Answer:`, optional star and
whitespace. -/
def findCA : List Char → Option Char
  | [] => none
  | c :: restAll =>
      match
        (match caMarker (c :: restAll) with
         | none => none
         | some r =>
             let r1 := match r with | '*' :: t => t | _ => r
             match r1.dropWhile jsSpace with
             | ch :: _ =>
                 if ch == 'A' || ch == 'B' || ch == 'C' || ch == 'D' ||
                    ch == 'a' || ch == 'b' || ch == 'c' || ch == 'd'
                 then some ch else none
             | [] => none)
      with
      | some ch => some ch
      | none => findCA restAll

/-- Models `questionText.replace(/^\d+\.\s*/, "")`: strip a leading run of
digits followed by a dot and whitespace, when present. -/
def stripLeadingNum (cs : List Char) : List Char :=
  let ds := cs.takeWhile Char.isDigit
  if ds.isEmpty then cs
  else
    match cs.drop ds.length with
    | '.' :: rest => rest.dropWhile jsSpace
    | _ => cs

/-- Case-sensitive removal of a pattern from the front of a character
list: `some rest` when `s` starts with `pat` exactly. -/
def csStrip : List Char → List Char → Option (List Char)
  | [], s => some s
  | _ :: _, [] => none
  | p :: ps, c :: cs => if p == c then csStrip ps cs else none

/-- Whether a URL match of `/http[s]?:\/\/\S+/` begins at the head of
`s`: the literal scheme prefix followed by at least one non-whitespace
character. The regex carries no `/i` flag, so the scheme test is
case-sensitive. -/
def urlStartsHere (s : List Char) : Bool :=
  (match csStrip "http://".data s with
   | some (c :: _) => !jsSpace c
   | _ => false)
  ||
  (match csStrip "https://".data s with
   | some (c :: _) => !jsSpace c
   | _ => false)

/-- Models `questionText.replace(/http[s]?:\/\/\S+/g, "")` as a left-to-right
scan: when a URL match starts, the match extends greedily over all
following non-whitespace characters, which the scan deletes (state
`inUrl = true`) until whitespace or the end of the string. -/
def stripURLsGo : Bool → List Char → List Char
  | _, [] => []
  | true, c :: rest =>
      if jsSpace c then c :: stripURLsGo false rest else stripURLsGo true rest
  | false, c :: rest =>
      if urlStartsHere (c :: rest) then stripURLsGo true rest
      else c :: stripURLsGo false rest

/-- The two question-text `replace` steps of `parseQuestionsFromText`:
`lines[0].replace(/^\d+\.\s*/, "").trim()` followed by
`.replace(/http[s]?:\/\/\S+/g, "").trim()`. -/
def questionTextOf (l0 : List Char) : String :=
  String.mk (jsTrim (stripURLsGo false (jsTrim (stripLeadingNum l0))))

/-- Models `block.split("\n")` (literal newline split, keeping empty pieces;
they are filtered afterwards like in the source). -/
def splitOnNLGo : List Char → List Char → List (List Char)
  | acc, [] => [acc.reverse]
  | acc, c :: rest =>
      if c == '\n' then acc.reverse :: splitOnNLGo [] rest
      else splitOnNLGo (c :: acc) rest

/-- The lookahead `(?=\d+\.)`: the characters ahead start with one or
more digits immediately followed by a dot. -/
def digitDotAhead (s : List Char) : Bool :=
  !(s.takeWhile Char.isDigit).isEmpty &&
    (match s.dropWhile Char.isDigit with
     | '.' :: _ => true
     | _ => false)

/-- Models `mcqSection.split(/\n(?=\d+\.)/)`: split at each newline that is
followed by digits and a dot, consuming the newline. -/
def blockSplitGo : List Char → List Char → List (List Char)
  | acc, [] => [acc.reverse]
  | acc, c :: rest =>
      if c == '\n' && digitDotAhead rest then acc.reverse :: blockSplitGo [] rest
      else blockSplitGo (c :: acc) rest

/-- First header alternative of the section split regex
`/\*\*Multiple-Choice Questions\*\*|\*\*Multiple Choice Questions\*\*/i`. -/
def hdrHyphen : List Char :=
  "**multiple-choice questions**".data

/-- Second header alternative of the section split regex. -/
def hdrSpace : List Char :=
  "**multiple choice questions**".data

/-- Find the first header occurrence and return the text after it
(regex alternation tries the hyphen form first at each position; the two
alternatives are the same length and cannot both match). -/
def findHeaderEnd : List Char → Option (List Char)
  | [] => none
  | c :: rest =>
      match ciStrip hdrHyphen (c :: rest) with
      | some suf => some suf
      | none =>
          match ciStrip hdrSpace (c :: rest) with
          | some suf => some suf
          | none => findHeaderEnd rest

/-- Text up to (excluding) the next header occurrence: `sections[1]` of
a `split` ends at the start of the following separator match. -/
def takeUntilHeader : List Char → List Char
  | [] => []
  | c :: rest =>
      if ciStartsWith hdrHyphen (c :: rest) || ciStartsWith hdrSpace (c :: rest)
      then []
      else c :: takeUntilHeader rest

/-- Models `sections.length > 1 ? sections[1] : text` after the header split. -/
def headerSection (cs : List Char) : List Char :=
  match findHeaderEnd cs with
  | none => cs
  | some suf => takeUntilHeader suf

/-- A structured question recovered by `parseQuestionsFromText`. -/
structure ParsedQuestion where
  question : String
  options : List String
  answer : String
deriving DecidableEq, Repr

/-- The body of the option-scanning loop (`for (let i = 1; ...)`) of
`parseQuestionsFromText`, as a fold step over the accumulated
`(options, correctAnswer)` state: trim the line, try the option-line
regex, clean and push a non-empty option text, and record (overwrite)
the correct-answer letter when the line carries the marker. -/
def optionStep (st : List String × Option Char) (line : List Char) :
    List String × Option Char :=
  let lt := jsTrim line
  match optionLineBody lt with
  | none => st
  | some body =>
      let t2 := jsTrim (cleanupOption (jsTrim body))
      let opts2 := if t2.isEmpty then st.1 else st.1 ++ [String.mk t2]
      let corr2 := match findCA lt with
        | some ch => some ch
        | none => st.2
      (opts2, corr2)

/-- One block of `parseQuestionsFromText`: trim, split into non-blank
lines, require at least 4 of them, recover the question text from the
first line and the options from the rest, require at least 3 options,
clamp to 4, and resolve the recorded letter (`charCodeAt(0) - 65`
without upper-casing, out-of-range falling back to index 0; no letter
recorded also gives index 0). -/
def processBlock (b : List Char) : Option ParsedQuestion :=
  let lines := (splitOnNLGo [] (jsTrim b)).filter (fun l => !(jsTrim l).isEmpty)
  if lines.length < 4 then none
  else
    match lines with
    | [] => none
    | l0 :: restLines =>
        let qText := questionTextOf l0
        let st := restLines.foldl optionStep ([], none)
        if qText ≠ "" ∧ st.1.length ≥ 3 then
          let finalOptions := st.1.take 4
          let rawIdx : Int := match st.2 with
            | some ch => (ch.toNat : Int) - 65
            | none => 0
          let answerIndex : Nat :=
            if rawIdx < 0 ∨ (finalOptions.length : Int) ≤ rawIdx then 0
            else rawIdx.toNat
          some ⟨qText, finalOptions, jsIndexOr finalOptions answerIndex⟩
        else none

/-- The helper `parseQuestionsFromText` from `mcq-app/src/App.js`: guard against a
falsy input, cut out the section after a `**Multiple-Choice
Questions**` header when one is present, split into numbered blocks,
and convert each block, dropping blocks that fail the minimum check. -/
def parseQuestionsFromText (text : String) : List ParsedQuestion :=
  if text = "" then []
  else (blockSplitGo [] (headerSection text.data)).filterMap processBlock

/-- A JS number that may be `NaN` (`Math.round((0/0)*100)` is `NaN`). -/
inductive JsNum where
  | nan
  | int (n : Int)
deriving DecidableEq, Repr

/-- Here `correct`/`total` are non-negative integers with `0 < total`, so
`Math.round((correct / total) * 100)` is the rational
`100 * correct / total` rounded half-up:
`⌊(200 * correct + total) / (2 * total)⌋`. -/
def jsRound (correct total : Nat) : Nat :=
  (200 * correct + total) / (2 * total)

/-- A stored quiz: the entry `{ questions, answers: normalizedAnswers }`
placed into `answerStore` by `/generate`. The scorer only reads
`answers`; the claims about scoring quantify over string answer keys,
which is the shape `normalizedAnswers` produces for every stored
question whose raw answer is not a non-zero number paired with an empty
option list. -/
structure QuizEntry where
  questions : List GenQuestion
  answers : List String
deriving DecidableEq, Repr

/-- One iteration of the scoring loop in `/evaluate-quiz`:
`(ans || "").toLowerCase() === (answers[i] || "").toLowerCase()`.
A present entry equal to `""` and a missing entry both read as `""`
through `|| ""`, matching the JS coercion. Note: no `.trim()`. -/
def quizCorrectAt (key sub : List String) (i : Nat) : Bool :=
  jsToLower (key.getD i "") == jsToLower (sub.getD i "")

/-- The value of `correct` after the `stored.answers.forEach` loop of
`/evaluate-quiz`. -/
def quizCorrectCount (key sub : List String) : Nat :=
  (List.range key.length).countP (fun i => quizCorrectAt key sub i)

/-- Outcome of `/evaluate-quiz`: 404 when the quiz id is unknown, a
thrown `TypeError` (surfaced by Express as a 500 error page) when the
bracket lookup hits a member inherited from `Object.prototype`,
otherwise the `{ correct, wrong, score }` body. -/
inductive ScoreOutcome where
  | notFound
  | typeError
  | found (correct wrong : Nat) (score : JsNum)
deriving DecidableEq, Repr

/-- The property names `answerStore[quizId]` can resolve through the
prototype chain of the plain object literal `{}`: the members of
`Object.prototype`. Each of these values is a function (or, for
`__proto__`, `Object.prototype` itself), hence truthy. -/
def objectProtoKeys : List String :=
  ["constructor", "hasOwnProperty", "isPrototypeOf", "propertyIsEnumerable",
   "toLocaleString", "toString", "valueOf", "__proto__",
   "__defineGetter__", "__defineSetter__", "__lookupGetter__",
   "__lookupSetter__"]

/-- The `/evaluate-quiz` route: read `answerStore[quizId]`. An own
property (a stored quiz — assignment in `/generate` creates an own
property, shadowing the prototype) is scored: count matches and compute
`Math.round((correct / total) * 100)` — which is `NaN` when `total` is
0, since the route has no zero-total guard. With no own property, a
`quizId` naming an `Object.prototype` member yields that inherited
truthy value, so the `!stored` guard does not fire and
`stored.answers.forEach` throws a `TypeError` (the handler is not
async, so Express answers 500). Only otherwise is 404 returned. -/
def evaluateQuiz (store : List (String × QuizEntry)) (quizId : String)
    (answers : List String) : ScoreOutcome :=
  match List.lookup quizId store with
  | none =>
      if objectProtoKeys.contains quizId then .typeError else .notFound
  | some e =>
      let correct := quizCorrectCount e.answers answers
      let total := e.answers.length
      let score := if total = 0 then JsNum.nan else JsNum.int (jsRound correct total)
      .found correct (total - correct) score

/-- Skill tiers assigned by `/evaluate-level`. -/
inductive Level where
  | Beginner
  | Intermediate
  | Advanced
deriving DecidableEq, Repr

/-- The threshold bucketing of `/evaluate-level`:
`percentage >= 80 → Advanced`, else `percentage >= 60 → Intermediate`,
else `Beginner`. -/
def levelFor (percentage : Nat) : Level :=
  if 80 ≤ percentage then .Advanced
  else if 60 ≤ percentage then .Intermediate
  else .Beginner

/-- One comparison of the `/evaluate-level` loop:
`(ans || "").toLowerCase().trim() === (correctAnswers[i] || "").toLowerCase().trim()`. -/
def levelAnsEq (u v : String) : Bool :=
  jsTrimStr (jsToLower u) == jsTrimStr (jsToLower v)

/-- The value of `correct` after the `answers.forEach` loop of `/evaluate-level`. -/
def levelCorrectCount (xs ys : List String) : Nat :=
  (List.range xs.length).countP (fun i => levelAnsEq (xs.getD i "") (ys.getD i ""))

/-- Models `total > 0 ? Math.round((correct / total) * 100) : 0` in
`/evaluate-level`. -/
def levelPercentage (xs ys : List String) : Nat :=
  if 0 < xs.length then jsRound (levelCorrectCount xs ys) xs.length else 0

/-- Outcome of `/evaluate-level`: 400 for non-array inputs or a length
mismatch, otherwise the `{ correct, total, percentage, level }` body. -/
inductive EvalLevelOutcome where
  | invalidInput
  | ok (correct total percentage : Nat) (level : Level)
deriving DecidableEq, Repr

/-- The `/evaluate-level` route. `none` models a request field that
fails `Array.isArray` (missing, or not an array). -/
def evaluateLevel (answers correctAnswers : Option (List String)) :
    EvalLevelOutcome :=
  match answers, correctAnswers with
  | some xs, some ys =>
      if xs.length ≠ ys.length then .invalidInput
      else
        .ok (levelCorrectCount xs ys) xs.length (levelPercentage xs ys)
          (levelFor (levelPercentage xs ys))
  | _, _ => .invalidInput

/-- A question of the level assessment test (`/generate-level-test`). -/
structure LevelQuestion where
  question : String
  options : List String
  answer : String
  difficulty : String
deriving DecidableEq, Repr

/-- The hard-coded mock question set of `/generate-level-test`
(topic-templated, 5 questions). -/
def mockLevelQuestions (topic : String) : List LevelQuestion :=
  [⟨s!"What is the basic definition of {topic}?",
    ["Option A", "Option B", "Option C", "Option D"], "Option A", "Beginner"⟩,
   ⟨s!"How would you apply {topic} in a real-world scenario?",
    ["Option A", "Option B", "Option C", "Option D"], "Option B", "Intermediate"⟩,
   ⟨s!"What is an advanced technique in {topic}?",
    ["Option A", "Option B", "Option C", "Option D"], "Option C", "Advanced"⟩,
   ⟨s!"How does {topic} relate to other concepts?",
    ["Option A", "Option B", "Option C", "Option D"], "Option A", "Intermediate"⟩,
   ⟨s!"What are the edge cases in {topic}?",
    ["Option A", "Option B", "Option C", "Option D"], "Option D", "Advanced"⟩]

/-- The observable behaviour of the generation provider inside
`/generate-level-test`: `model.generateContent(...)` either throws
(provider unreachable) or resolves, in which case the optional chain
`result?.response?.candidates?.[0]?.content?.parts?.[0]?.text` yields
either no text (`none`) or a raw text string. -/
inductive ProviderCall where
  | throws
  | returns (rawText : Option String)
deriving DecidableEq, Repr

/-- Outcome of `/generate-level-test`: 400 for a blank topic, 500 from
the catch-all handler, or a 200 with a question list. -/
inductive LevelTestOutcome where
  | badRequest (msg : String)
  | serverError (msg : String)
  | ok (qs : List LevelQuestion)
deriving DecidableEq, Repr

/-- The `/generate-level-test` route. `lib = none` models
`GoogleGenerativeAI` being falsy (the only condition under which the
source takes the mock-question branch). When the library is present,
a throwing call, a missing raw text, an empty raw text (falsy, so
`if (!rawText) throw`), and an unparseable raw text all fall into the
catch-all, which answers 500 `"Level test generation failed"`.
`decode` models `JSON.parse` on the raw text (`none` = parse throws). -/
def generateLevelTest (decode : String → Option (List LevelQuestion))
    (lib : Option ProviderCall) (topic : String) : LevelTestOutcome :=
  if jsTrimStr topic = "" then .badRequest "topic required"
  else
    match lib with
    | none => .ok (mockLevelQuestions topic)
    | some .throws => .serverError "Level test generation failed"
    | some (.returns none) => .serverError "Level test generation failed"
    | some (.returns (some raw)) =>
        if raw = "" then .serverError "Level test generation failed"
        else
          match decode raw with
          | none => .serverError "Level test generation failed"
          | some qs => .ok qs

section Lemmas

/-- The default head `headD` of a non-empty list is a member. -/
theorem headD_mem_of_ne_nil (opts : List String) (hne : opts ≠ []) :
    opts.headD "" ∈ opts := by
  cases opts with
  | nil => exact absurd rfl hne
  | cons a t => exact List.mem_cons_self a t

/-- Indexing via `jsIndexOr` into a non-empty list returns a member. -/
theorem jsIndexOr_mem (opts : List String) (i : Nat) (hne : opts ≠ []) :
    jsIndexOr opts i ∈ opts := by
  unfold jsIndexOr
  cases hv : opts.get? i with
  | none => exact headD_mem_of_ne_nil _ hne
  | some v =>
      by_cases h0 : v = ""
      · simp only [h0, if_pos rfl]
        exact headD_mem_of_ne_nil _ hne
      · simp only [if_neg h0]
        exact List.get?_mem hv

/-- When `jsIndexOr` returns the empty string, the head of the list is
itself the empty string. -/
theorem jsIndexOr_eq_empty (opts : List String) (i : Nat)
    (h : jsIndexOr opts i = "") : opts.headD "" = "" := by
  unfold jsIndexOr at h
  cases hv : opts.get? i with
  | none => rw [hv] at h; exact h
  | some v =>
      rw [hv] at h
      dsimp only at h
      by_cases h0 : v = ""
      · rw [if_pos h0] at h; exact h
      · rw [if_neg h0] at h; exact absurd h h0

/-- Indexing via `jsIndexOrZ` into a non-empty list returns a member. -/
theorem jsIndexOrZ_mem (opts : List String) (n : Int) (hne : opts ≠ []) :
    jsIndexOrZ opts n ∈ opts := by
  unfold jsIndexOrZ
  by_cases h : 0 ≤ n
  · rw [if_pos h]; exact jsIndexOr_mem _ _ hne
  · rw [if_neg h]; exact headD_mem_of_ne_nil _ hne

/-- When `jsIndexOrZ` returns the empty string, the head of the list is
itself the empty string. -/
theorem jsIndexOrZ_eq_empty (opts : List String) (n : Int)
    (h : jsIndexOrZ opts n = "") : opts.headD "" = "" := by
  unfold jsIndexOrZ at h
  by_cases h0 : 0 ≤ n
  · rw [if_pos h0] at h; exact jsIndexOr_eq_empty _ _ h
  · rw [if_neg h0] at h; exact h

/-- The normalizer `normalizeAnswer` leaves a literal string answer fixed provided it
is not a single letter A-D and, when it is empty, the first option is
empty as well. -/
theorem normalizeAnswer_str_fix (v : String) (opts : List String)
    (hL : isLetterAD v = false) (hfix : v = "" → opts.headD "" = "") :
    normalizeAnswer (.str v) opts = .str v := by
  by_cases hv : v = ""
  · subst hv
    unfold normalizeAnswer
    simp only [jsTruthy]
    rw [if_pos (by decide), hfix rfl]
  · unfold normalizeAnswer
    have ht : jsTruthy (.str v) = true := by
      simp [jsTruthy, hv]
    rw [if_neg (by simp [ht])]
    simp only [hL, Bool.false_and, if_neg Bool.false_ne_true]

/-- Members of an option list on which no entry is a single letter A-D
are not single letters A-D. -/
theorem not_letter_of_mem (opts : List String)
    (h : ∀ o ∈ opts, isLetterAD o = false) (v : String) (hv : v ∈ opts) :
    isLetterAD v = false :=
  h v hv

end Lemmas

/-- C4 (corrected form): `normalizeAnswer` is idempotent whenever no
entry of the option list is itself a single letter A-D
(case-insensitively); the counterexample `normalize_not_idempotent_cex`
shows the unconditional claim fails. -/
theorem normalize_idempotent_of_no_letter_options (x : JsAns)
    (opts : List String) (h : ∀ o ∈ opts, isLetterAD o = false) :
    normalizeAnswer (normalizeAnswer x opts) opts = normalizeAnswer x opts := by
  have hhead : isLetterAD (opts.headD "") = false := by
    cases opts with
    | nil => decide
    | cons a t => exact h a (List.mem_cons_self a t)
  have hheadfix : opts.headD "" = "" → opts.headD "" = "" := fun hh => hh
  cases x with
  | absent =>
      have hx : normalizeAnswer JsAns.absent opts = .str (opts.headD "") := rfl
      rw [hx]
      exact normalizeAnswer_str_fix _ _ hhead hheadfix
  | str s =>
      by_cases hs : s = ""
      · subst hs
        have hx : normalizeAnswer (JsAns.str "") opts = .str (opts.headD "") := rfl
        rw [hx]
        exact normalizeAnswer_str_fix _ _ hhead hheadfix
      · have ht : jsTruthy (.str s) = true := by simp [jsTruthy, hs]
        by_cases hL : isLetterAD s = true
        · cases hopts : opts.isEmpty with
          | true =>
              have hx : normalizeAnswer (JsAns.str s) opts = .str s := by
                unfold normalizeAnswer
                rw [if_neg (by simp [ht])]
                simp only [hL, hopts, Bool.not_true, Bool.and_false,
                  if_neg Bool.false_ne_true]
              rw [hx, hx]
          | false =>
              have hne : opts ≠ [] := by
                cases opts with
                | nil => simp at hopts
                | cons a t => exact List.cons_ne_nil a t
              have hx : normalizeAnswer (JsAns.str s) opts =
                  .str (jsIndexOr opts (letterIdx s)) := by
                unfold normalizeAnswer
                rw [if_neg (by simp [ht])]
                simp [hL, hopts]
              rw [hx]
              exact normalizeAnswer_str_fix _ _
                (h _ (jsIndexOr_mem _ _ hne))
                (fun hv => jsIndexOr_eq_empty _ _ hv)
        · have hL2 : isLetterAD s = false := by
            cases hb : isLetterAD s with
            | true => exact absurd hb hL
            | false => rfl
          have hx : normalizeAnswer (JsAns.str s) opts = .str s :=
            normalizeAnswer_str_fix _ _ hL2 (fun hv => absurd hv hs)
          rw [hx, hx]
  | num n =>
      by_cases hn : n = 0
      · subst hn
        have hx : normalizeAnswer (JsAns.num 0) opts = .str (opts.headD "") := rfl
        rw [hx]
        exact normalizeAnswer_str_fix _ _ hhead hheadfix
      · have ht : jsTruthy (.num n) = true := by simp [jsTruthy, hn]
        cases hopts : opts.isEmpty with
        | true =>
            have hx : normalizeAnswer (JsAns.num n) opts = .num n := by
              unfold normalizeAnswer
              rw [if_neg (by simp [ht])]
              simp only [hopts, Bool.not_true, if_neg Bool.false_ne_true]
            rw [hx, hx]
        | false =>
            have hne : opts ≠ [] := by
              cases opts with
              | nil => simp at hopts
              | cons a t => exact List.cons_ne_nil a t
            have hx : normalizeAnswer (JsAns.num n) opts =
                .str (jsIndexOrZ opts n) := by
              unfold normalizeAnswer
              rw [if_neg (by simp [ht])]
              simp [hopts]
            rw [hx]
            exact normalizeAnswer_str_fix _ _
              (h _ (jsIndexOrZ_mem _ _ hne))
              (fun hv => jsIndexOrZ_eq_empty _ _ hv)

/-- C4 counterexample: with option list `["B", "A"]` the raw answer
`"A"` normalizes to `"B"`, which re-normalizes to `"A"`, so
`normalize(normalize(x, opts), opts) ≠ normalize(x, opts)`; in
particular the already-normalized literal answer `"B"` is not returned
unchanged. -/
theorem normalize_not_idempotent_cex :
    normalizeAnswer (normalizeAnswer (.str "A") ["B", "A"]) ["B", "A"] ≠
      normalizeAnswer (.str "A") ["B", "A"] := by
  decide

/-- C4 witness: the corrected idempotence theorem applied at the raw
letter answer `"B"` over the option list `["foo", "bar"]`, none of
whose entries is a single letter A-D. -/
theorem normalize_idempotent_of_no_letter_options_witness :
    (∀ o ∈ ["foo", "bar"], isLetterAD o = false) ∧
    normalizeAnswer (normalizeAnswer (.str "B") ["foo", "bar"]) ["foo", "bar"] =
      normalizeAnswer (.str "B") ["foo", "bar"] :=
  ⟨by decide, normalize_idempotent_of_no_letter_options _ _ (by decide)⟩

/-- C1 (corrected form): the `/generate` response is the generator's
question list unchanged (each question object keeps its `answer`
field), and whenever a question's raw answer is non-empty literal text
that is not a single letter A-D, that very value is one of the stored
normalized correct answers — so the response does embed stored
correct-answer values. -/
theorem generate_response_embeds_stored_answer (qs : List GenQuestion)
    (q : GenQuestion) (hq : q ∈ qs) (s : String) (hs : q.answer = .str s)
    (hne : s ≠ "") (hL : isLetterAD s = false) :
    generateResponse qs = qs ∧ q.answer ∈ normalizedAnswers qs := by
  refine ⟨rfl, ?_⟩
  have hfix : normalizeAnswer q.answer (genOpts q) = q.answer := by
    rw [hs]
    exact normalizeAnswer_str_fix _ _ hL (fun hv => absurd hv hne)
  rw [← hfix]
  exact List.mem_map_of_mem _ hq

/-- C1 counterexample: for the generated question
`{question: "q", options: ["foo", "bar"], answer: "bar"}` the stored
normalized answer is `"bar"` and the response question's `answer` field
is that same value, refuting the claim that no question object in the
response body embeds the stored correct-answer value. -/
theorem generate_discloses_answer_cex :
    ¬ generateNoDisclosure [⟨"q", some ["foo", "bar"], .str "bar"⟩] := by
  unfold generateNoDisclosure
  decide

/-- C1 witness: the corrected statement applied to the singleton
question list of the counterexample. -/
theorem generate_response_embeds_stored_answer_witness :
    generateResponse [⟨"q", some ["foo", "bar"], .str "bar"⟩] =
      [⟨"q", some ["foo", "bar"], .str "bar"⟩] ∧
    JsAns.str "bar" ∈
      normalizedAnswers [⟨"q", some ["foo", "bar"], .str "bar"⟩] :=
  generate_response_embeds_stored_answer
    [⟨"q", some ["foo", "bar"], .str "bar"⟩]
    ⟨"q", some ["foo", "bar"], .str "bar"⟩ (by decide) "bar" rfl
    (by decide) (by decide)

/-- Lowercasing maps give the empty string only on the empty
string (the character map preserves the length of the data list). -/
theorem jsToLower_eq_empty_iff (s : String) : jsToLower s = "" ↔ s = "" := by
  unfold jsToLower
  constructor
  · intro h
    have hdat : s.data.map Char.toLower = [] := congrArg String.data h
    have : s.data = [] := List.map_eq_nil_iff.mp hdat
    cases s
    simp_all
  · intro h
    rw [h]
    rfl

/-- C2 (corrected form): the `/evaluate-quiz` scorer counts index `i`
(for `i` below the stored key length) as correct exactly when the
lowercased stored answer equals the lowercased submitted entry, with a
missing entry read as `""` — there is no whitespace trimming, and a
missing entry does match when the stored normalized answer is itself
the empty string. -/
theorem evaluate_quiz_match_rule (key sub : List String) (i : Nat)
    (h : i < key.length) :
    (quizCorrectAt key sub i = true ↔
      jsToLower (key.getD i "") = jsToLower (sub.getD i "")) ∧
    (sub.get? i = none →
      (quizCorrectAt key sub i = true ↔ key.getD i "" = "")) := by
  constructor
  · unfold quizCorrectAt
    exact beq_iff_eq
  · intro hnone
    have hsub : sub.getD i "" = "" := by
      have h2 : sub[i]? = none := by
        rw [← List.get?_eq_getElem?]
        exact hnone
      simp [List.getD, h2]
    unfold quizCorrectAt
    rw [hsub]
    constructor
    · intro hb
      have hlow : jsToLower (key.getD i "") = jsToLower "" := beq_iff_eq.mp hb
      have hemp : jsToLower (key.getD i "") = "" := by rw [hlow]; rfl
      exact (jsToLower_eq_empty_iff _).mp hemp
    · intro hk
      rw [hk]
      decide

/-- C2 counterexample: with stored normalized key `["bar"]` the
submission `[" bar"]` scores 0 correct although trimmed case-insensitive
equality relates the two strings; and with stored key `[""]` the empty
submission (a missing entry at index 0) scores 1 correct, although the
claim says a missing entry never counts as a match. -/
theorem evaluate_quiz_trim_and_missing_cex :
    evaluateQuiz [("quiz_1", ⟨[], ["bar"]⟩)] "quiz_1" [" bar"] =
      .found 0 1 (.int 0) ∧
    jsTrimStr (jsToLower " bar") = jsTrimStr (jsToLower "bar") ∧
    evaluateQuiz [("quiz_2", ⟨[], [""]⟩)] "quiz_2" [] =
      .found 1 0 (.int 100) := by
  refine ⟨by decide, by decide, by decide⟩

/-- C2 witness: the corrected matching rule at stored key `["bar"]`,
submission `[" bar"]`, index 0. -/
theorem evaluate_quiz_match_rule_witness :
    (quizCorrectAt ["bar"] [" bar"] 0 = true ↔
      jsToLower (["bar"].getD 0 "") = jsToLower ([" bar"].getD 0 "")) ∧
    ([" bar"].get? 0 = none →
      (quizCorrectAt ["bar"] [" bar"] 0 = true ↔ ["bar"].getD 0 "" = "")) :=
  evaluate_quiz_match_rule ["bar"] [" bar"] 0 (by decide)

/-- C3: for a stored quiz with zero questions, `/evaluate-quiz`
computes `Math.round((0 / 0) * 100)`, which is `NaN` (serialized as
`null`), not the numeric zero the specification requires: the route has
no zero-total guard (unlike `/evaluate-level`). -/
theorem evaluate_quiz_zero_total_nan :
    evaluateQuiz [("quiz_0", ⟨[], []⟩)] "quiz_0" [] = .found 0 0 JsNum.nan ∧
    JsNum.nan ≠ JsNum.int 0 := by
  refine ⟨rfl, by decide⟩

/-- End-to-end scenario B input of the specification. -/
def scenarioBText : String :=
  "1. What is X?\nA) foo\nB) bar\nC) baz\n*Correct Answer:* B"

/-- The scenario B text with the correct-answer marker trailing the
last option line instead of standing on its own line. -/
def scenarioBInlineText : String :=
  "1. What is X?\nA) foo\nB) bar\nC) baz *Correct Answer:* B"

/-- C5 (corrected form): parsing the scenario B text yields exactly one
question with options `["foo", "bar", "baz"]` but with correct answer
`"foo"`: the standalone `*Correct Answer:* B` line does not match the
option-line pattern, and the correct-answer check is only performed on
lines that do, so no letter is recorded and the parser defaults to the
first option. When the same marker trails an option line, the letter is
recorded and resolves to `"bar"`. -/
theorem parse_scenarioB_standalone_marker_ignored :
    parseQuestionsFromText scenarioBText =
      [⟨"What is X?", ["foo", "bar", "baz"], "foo"⟩] ∧
    parseQuestionsFromText scenarioBInlineText =
      [⟨"What is X?", ["foo", "bar", "baz"], "bar"⟩] := by
  refine ⟨by decide, by decide⟩

/-- C5 counterexample: the scenario B text does not parse to a question
whose correct answer is `"bar"`, refuting the claimed scenario. -/
theorem parse_scenarioB_cex :
    parseQuestionsFromText scenarioBText ≠
      [⟨"What is X?", ["foo", "bar", "baz"], "bar"⟩] := by
  decide

/-- C6: evaluation of `/generate-level-test` at the claim's failing
inputs. With the generative-AI library loaded, a provider call that
throws (unreachable provider) or yields no usable content is caught by
the catch-all and surfaces a hard 500 failure instead of the mock
fallback; the deterministic 5-question topic-templated mock set is
returned only when the library constructor itself is falsy. -/
theorem level_test_hard_failure_on_provider_error :
    generateLevelTest (fun _ => none) (some ProviderCall.throws) "React" =
      .serverError "Level test generation failed" ∧
    generateLevelTest (fun _ => none) (some (ProviderCall.returns none)) "React" =
      .serverError "Level test generation failed" ∧
    generateLevelTest (fun _ => none) none "React" =
      .ok (mockLevelQuestions "React") ∧
    (mockLevelQuestions "React").length = 5 := by
  refine ⟨by decide, by decide, by decide, by decide⟩

/-- C7 (corrected form): `/evaluate-quiz` answers 404 Not Found, with
no score result, for every quiz id that is neither in the store nor the
name of a member inherited from `Object.prototype`; for an absent quiz
id that does name an inherited member, the truthy inherited value
bypasses the `!stored` guard and the route throws a `TypeError` on
`stored.answers.forEach` (surfaced as a 500) — still no score result,
but not a 404. -/
theorem evaluate_quiz_unknown_id_not_found (store : List (String × QuizEntry))
    (quizId : String) (answers : List String)
    (h : List.lookup quizId store = none) :
    (objectProtoKeys.contains quizId = false →
      evaluateQuiz store quizId answers = .notFound) ∧
    (objectProtoKeys.contains quizId = true →
      evaluateQuiz store quizId answers = .typeError) := by
  constructor
  · intro hk
    unfold evaluateQuiz
    rw [h]
    dsimp only
    rw [hk]
    rfl
  · intro hk
    unfold evaluateQuiz
    rw [h]
    dsimp only
    rw [hk]
    rfl

/-- C7 counterexample: the quiz id `"toString"` is not present in the
(empty) quiz store, yet scoring it does not fail with NotFound: the
inherited `Object.prototype.toString` method is truthy, so the route
reaches `stored.answers.forEach` and throws a `TypeError` instead. -/
theorem evaluate_quiz_proto_key_cex :
    evaluateQuiz [] "toString" ["x"] = .typeError ∧
    ScoreOutcome.typeError ≠ ScoreOutcome.notFound := by
  refine ⟨by decide, by decide⟩

/-- C7 witness: end-to-end scenario D, `score("unknown-id", ["x"])`
against a store holding one unrelated quiz, where `"unknown-id"` names
no inherited member, and the thrown-`TypeError` branch at the absent
prototype-member id `"valueOf"`. -/
theorem evaluate_quiz_unknown_id_not_found_witness :
    evaluateQuiz [("quiz_1", ⟨[], ["bar"]⟩)] "unknown-id" ["x"] = .notFound ∧
    evaluateQuiz [("quiz_1", ⟨[], ["bar"]⟩)] "valueOf" ["x"] = .typeError :=
  ⟨(evaluate_quiz_unknown_id_not_found [("quiz_1", ⟨[], ["bar"]⟩)]
      "unknown-id" ["x"] (by decide)).1 (by decide),
   (evaluate_quiz_unknown_id_not_found [("quiz_1", ⟨[], ["bar"]⟩)]
      "valueOf" ["x"] (by decide)).2 (by decide)⟩

/-- C8: `/evaluate-level` fails with InvalidInput (400), producing no
assessment result, whenever either input is not a proper sequence or
the two sequences differ in length. -/
theorem evaluate_level_invalid_input (a c : Option (List String))
    (h : a = none ∨ c = none ∨
      ∃ xs ys, a = some xs ∧ c = some ys ∧ xs.length ≠ ys.length) :
    evaluateLevel a c = .invalidInput := by
  rcases h with h | h | ⟨xs, ys, hx, hy, hne⟩
  · subst h
    cases c <;> rfl
  · subst h
    cases a <;> rfl
  · subst hx
    subst hy
    simp [evaluateLevel, hne]

/-- C8 witness: a length mismatch between `["x"]` and `[]`. -/
theorem evaluate_level_invalid_input_witness :
    evaluateLevel (some ["x"]) (some []) = .invalidInput :=
  evaluate_level_invalid_input (some ["x"]) (some [])
    (Or.inr (Or.inr ⟨["x"], [], rfl, rfl, by decide⟩))

/-- C9: for equal-length inputs `/evaluate-level` returns the computed
percentage bucketed with inclusive lower bounds — at least 80 gives
Advanced, at least 60 but below 80 gives Intermediate, below 60 gives
Beginner — and for empty inputs the percentage is 0 and the level is
Beginner. -/
theorem evaluate_level_threshold_buckets (xs ys : List String)
    (h : xs.length = ys.length) :
    evaluateLevel (some xs) (some ys) =
      .ok (levelCorrectCount xs ys) xs.length (levelPercentage xs ys)
        (levelFor (levelPercentage xs ys)) ∧
    (∀ p, 80 ≤ p → levelFor p = .Advanced) ∧
    (∀ p, 60 ≤ p → p < 80 → levelFor p = .Intermediate) ∧
    (∀ p, p < 60 → levelFor p = .Beginner) ∧
    (xs = [] → levelPercentage xs ys = 0 ∧
      levelFor (levelPercentage xs ys) = .Beginner) := by
  refine ⟨?_, ?_, ?_, ?_, ?_⟩
  · simp [evaluateLevel, h]
  · intro p hp
    unfold levelFor
    rw [if_pos hp]
  · intro p h60 h80
    unfold levelFor
    rw [if_neg (by omega), if_pos h60]
  · intro p hp
    unfold levelFor
    rw [if_neg (by omega), if_neg (by omega)]
  · intro hxs
    subst hxs
    exact ⟨rfl, rfl⟩

/-- C9 witness: end-to-end scenario C (4 of 5 correct gives exactly 80,
Advanced), the 60 boundary (3 of 5, Intermediate), and 59 (Beginner). -/
theorem evaluate_level_threshold_buckets_witness :
    evaluateLevel (some ["a", "b", "c", "d", "e"])
        (some ["a", "b", "c", "d", "f"]) = .ok 4 5 80 Level.Advanced ∧
    evaluateLevel (some ["a", "b", "c", "d", "e"])
        (some ["a", "b", "c", "x", "y"]) = .ok 3 5 60 Level.Intermediate ∧
    levelFor 59 = Level.Beginner := by
  refine ⟨?_, ?_, by decide⟩
  · have h := evaluate_level_threshold_buckets ["a", "b", "c", "d", "e"]
      ["a", "b", "c", "d", "f"] rfl
    rw [h.1]
    decide
  · have h := evaluate_level_threshold_buckets ["a", "b", "c", "d", "e"]
      ["a", "b", "c", "x", "y"] rfl
    rw [h.1]
    decide

/-- Reading `getD` on a `take`-prefix agrees with `getD` on the full list below
the cut. -/
theorem getD_take_of_lt (l : List String) (n i : Nat) (h : i < n) :
    (l.take n).getD i "" = l.getD i "" := by
  induction l generalizing n i with
  | nil => simp
  | cons a t ih =>
      cases n with
      | zero => omega
      | succ m =>
          cases i with
          | zero => rfl
          | succ j =>
              simp only [List.take_succ_cons, List.getD_cons_succ]
              exact ih m j (by omega)

/-- C10: for every stored quiz, the scorer's correct count never
exceeds the stored answer-key length, and the whole result is unchanged
when the submission is truncated to the key length — entries beyond the
stored question count are ignored. -/
theorem evaluate_quiz_bounded_and_positional
    (store : List (String × QuizEntry)) (quizId : String)
    (answers : List String) (e : QuizEntry)
    (h : List.lookup quizId store = some e) :
    (∃ c w s, evaluateQuiz store quizId answers = .found c w s ∧
      c ≤ e.answers.length) ∧
    evaluateQuiz store quizId answers =
      evaluateQuiz store quizId (answers.take e.answers.length) := by
  have hbound : quizCorrectCount e.answers answers ≤ e.answers.length := by
    calc quizCorrectCount e.answers answers
        ≤ (List.range e.answers.length).length := List.countP_le_length _
      _ = e.answers.length := List.length_range _
  have htrunc : quizCorrectCount e.answers answers =
      quizCorrectCount e.answers (answers.take e.answers.length) := by
    unfold quizCorrectCount
    apply List.countP_congr
    intro i hi
    have hi2 : i < e.answers.length := List.mem_range.mp hi
    unfold quizCorrectAt
    rw [getD_take_of_lt answers e.answers.length i hi2]
  have heval : ∀ sub, evaluateQuiz store quizId sub =
      .found (quizCorrectCount e.answers sub)
        (e.answers.length - quizCorrectCount e.answers sub)
        (if e.answers.length = 0 then JsNum.nan
         else JsNum.int (jsRound (quizCorrectCount e.answers sub)
           e.answers.length)) := by
    intro sub
    unfold evaluateQuiz
    rw [h]
  constructor
  · exact ⟨_, _, _, heval answers, hbound⟩
  · rw [heval answers, heval (answers.take e.answers.length), htrunc]

/-- C10 witness: the bound and truncation invariance for a stored
two-answer key against a longer submission. -/
theorem evaluate_quiz_bounded_and_positional_witness :
    (∃ c w s,
      evaluateQuiz [("quiz_1", ⟨[], ["bar", "baz"]⟩)] "quiz_1"
          ["bar", "x", "y"] = .found c w s ∧ c ≤ 2) ∧
    evaluateQuiz [("quiz_1", ⟨[], ["bar", "baz"]⟩)] "quiz_1"
        ["bar", "x", "y"] =
      evaluateQuiz [("quiz_1", ⟨[], ["bar", "baz"]⟩)] "quiz_1"
        (["bar", "x", "y"].take 2) :=
  evaluate_quiz_bounded_and_positional [("quiz_1", ⟨[], ["bar", "baz"]⟩)]
    "quiz_1" ["bar", "x", "y"] ⟨[], ["bar", "baz"]⟩ rfl
